import Mathlib

/-!
Verification of the financial-dashboard core (`src/index.tsx`).

The in-scope logic is:
* `formatValue` (src/index.tsx lines 93-107): the Value Formatter;
* `chartData` (src/index.tsx lines 84-91): the Series Projector, here
  generalised over its input snapshot as `chartDataOf`;
* the table-cell class rule (src/index.tsx lines 134-141): `cellClass`;
* `exportChartToImage` (src/index.tsx lines 165-179).

JavaScript numbers are modelled as `JsNum`: exact rationals plus the
special values `NaN`, `Infinity` and `-Infinity`; runtime values that can
reach the formatter are modelled as `JsVal`.  A record object is modelled
as its `metric` field plus an ordered association list of period/value
pairs; key enumeration (`Object.keys`) follows the stored order of that
list, which matches the source data where period keys are ascending years.
Operations that can throw in JavaScript (indexing a property of
`undefined`, `Object.keys(undefined)`) are modelled with `Except String`.
-/

namespace D6Dashboard

/-- A JavaScript number: a finite value (modelled exactly as a rational)
or one of the special values `NaN`, `Infinity`, `-Infinity`. -/
inductive JsNum where
  | fin : ℚ → JsNum
  | nan : JsNum
  | inf : JsNum
  | negInf : JsNum
deriving DecidableEq, Repr

/-- A JavaScript runtime value as far as the in-scope code can observe it:
a number, a string, a boolean, `null` or `undefined`. -/
inductive JsVal where
  | num : JsNum → JsVal
  | str : String → JsVal
  | boolean : Bool → JsVal
  | null : JsVal
  | jsUndefined : JsVal
deriving DecidableEq, Repr

/-- `typeof value === 'number'`. -/
def isNumber : JsVal → Bool
  | .num _ => true
  | _ => false

/-- Multiplication of a JavaScript number by the positive constant `100`
(`value * 100` in the source): exact on finite values, fixed on the
special values. -/
def jsNumMul100 : JsNum → JsNum
  | .fin q => .fin (q * 100)
  | n => n

/-- `v * 100` where `v` came out of a property read: a number behaves as
`jsNumMul100`; `undefined` (a missing property) coerces to `NaN`. -/
def jsMul100 : JsVal → JsVal
  | .num n => .num (jsNumMul100 n)
  | _ => .num .nan

/-- Does the character list `pat` occur as a prefix of `s`? -/
def hasPrefixChars : List Char → List Char → Bool
  | [], _ => true
  | _ :: _, [] => false
  | p :: ps, c :: cs => p == c && hasPrefixChars ps cs

/-- Does the character list `pat` occur as a contiguous sublist of `s`? -/
def containsChars (pat : List Char) : List Char → Bool
  | [] => hasPrefixChars pat []
  | c :: cs => hasPrefixChars pat (c :: cs) || containsChars pat cs

/-- JavaScript `s.includes(pat)`: case-sensitive substring test. -/
def strContains (s pat : String) : Bool :=
  containsChars pat.data s.data

/-- `Number.prototype.toFixed(1)` on the exact-rational model: the integer
`i` nearest to `10 * q` (ties go to the larger integer, as the ECMA-262
algorithm prescribes), printed as a one-decimal string.  The special
values print as `NaN`, `Infinity`, `-Infinity`. -/
def toFixed1 : JsNum → String
  | .nan => "NaN"
  | .inf => "Infinity"
  | .negInf => "-Infinity"
  | .fin q =>
    let i : ℤ := ⌊q * 10 + 1 / 2⌋
    (if i < 0 then "-" else "")
      ++ toString (i.natAbs / 10) ++ "." ++ toString (i.natAbs % 10)

/-- Two-digit zero-padding for the fractional part of a currency string. -/
def pad2 (n : Nat) : String :=
  if n < 10 then "0" ++ toString n else toString n

/-- A non-negative rational printed with exactly two decimal places,
rounding half away from zero. -/
def fixed2 (q : ℚ) : String :=
  let m : Nat := (⌊q * 100 + 1 / 2⌋ : ℤ).natAbs
  toString (m / 100) ++ "." ++ pad2 (m % 100)

/-- Modelled from the spec: the compact US-dollar currency formatter that
the source delegates to the host library
(`Intl.NumberFormat('en-US', \x7b style: 'currency', currency: 'USD',
minimumFractionDigits: 2, maximumFractionDigits: 2, notation: 'compact' \x7d)`),
whose implementation is not part of this repository.  Per the spec:
US-dollar style, two decimal places, large values abbreviated with an
en-US magnitude suffix (`K`, `M`, `B`, `T`).  Applied to a non-negative
finite value. -/
def compactUSDNonNeg (q : ℚ) : String :=
  if q < 1000 then "$" ++ fixed2 q
  else if q < 10 ^ 6 then "$" ++ fixed2 (q / 1000) ++ "K"
  else if q < 10 ^ 9 then "$" ++ fixed2 (q / 10 ^ 6) ++ "M"
  else if q < 10 ^ 12 then "$" ++ fixed2 (q / 10 ^ 9) ++ "B"
  else "$" ++ fixed2 (q / 10 ^ 12) ++ "T"

/-- Modelled from the spec: the host currency formatter on any
JavaScript number; negative finite values carry a leading minus sign
(en-US sign-before-symbol convention), and the special values keep the
host library's renderings. -/
def intlCompactUSD : JsNum → String
  | .nan => "$NaN"
  | .inf => "$∞"
  | .negInf => "-$∞"
  | .fin q => if q < 0 then "-" ++ compactUSDNonNeg (-q) else compactUSDNonNeg q

/-- The Value Formatter, `formatValue` (src/index.tsx lines 93-107):
non-numbers pass through unchanged; names containing `ROIC` or `Margins`
take the percentage branch `(value * 100).toFixed(1) + '%'`; every other
number is formatted as compact US-dollar currency. -/
def formatValue (value : JsVal) (metric : String) : JsVal :=
  match value with
  | .num n =>
    if strContains metric "ROIC" || strContains metric "Margins" then
      .str (toFixed1 (jsNumMul100 n) ++ "%")
    else
      .str (intlCompactUSD n)
  | v => v

/-- One row object of the source's `data` array: its `metric` label and
its ordered period/value pairs. -/
structure MetricRecord where
  metric : String
  values : List (String × JsNum)
deriving DecidableEq, Repr

/-- `Object.keys(r).filter(key => key !== 'metric')`: the record's period
keys in stored order (the `metric` key itself is filtered out). -/
def periodKeys (r : MetricRecord) : List String :=
  (r.values.map Prod.fst).filter (fun k => k ≠ "metric")

/-- Property read `r[key]` for a period key: the stored number, or
`undefined` when the record has no such key. -/
def jsGet (r : MetricRecord) (key : String) : JsVal :=
  match r.values.find? (fun p => p.fst == key) with
  | some p => .num p.snd
  | none => .jsUndefined

/-- One element of the projected `chartData` array:
`\x7b year, revenue, nopbt, roic \x7d`. -/
structure SeriesPoint where
  year : String
  revenue : JsVal
  nopbt : JsVal
  roic : JsVal
deriving DecidableEq, Repr

/-- Sequential effectful map: JavaScript's `Array.prototype.map` whose
callback may throw, stopping at the first thrown error. -/
def mapE {α β : Type} (f : α → Except String β) : List α → Except String (List β)
  | [] => .ok []
  | a :: as =>
    match f a with
    | .error e => .error e
    | .ok b =>
      match mapE f as with
      | .error e => .error e
      | .ok bs => .ok (b :: bs)

/-- The thrown `TypeError` for a property read on `undefined`
(`data[1][year]` when `data[1]` does not exist). -/
def typeErrorUndefRead : String :=
  "TypeError: Cannot read properties of undefined"

/-- The thrown `TypeError` for `Object.keys(undefined)`. -/
def typeErrorUndefKeys : String :=
  "TypeError: Cannot convert undefined or null to object"

/-- The map callback of `chartData` (src/index.tsx lines 86-91) for one
period key: builds `\x7b year, revenue: data[0][year], nopbt: data[1][year],
roic: data[2][year] * 100 \x7d`, throwing when `data[1]` or `data[2]` is
absent. -/
def seriesPointAt (data : List MetricRecord) (r0 : MetricRecord) (year : String) :
    Except String SeriesPoint :=
  match data.get? 1 with
  | none => .error typeErrorUndefRead
  | some r1 =>
    match data.get? 2 with
    | none => .error typeErrorUndefRead
    | some r2 =>
      .ok ⟨year, jsGet r0 year, jsGet r1 year, jsMul100 (jsGet r2 year)⟩

/-- The Series Projector: the `chartData` expression
(src/index.tsx lines 84-91) generalised over the snapshot it reads.
`Object.keys(data[0])` throws on an empty snapshot; otherwise each period
key of the first record is mapped to a `SeriesPoint`. -/
def chartDataOf (data : List MetricRecord) : Except String (List SeriesPoint) :=
  match data with
  | [] => .error typeErrorUndefKeys
  | r0 :: rest => mapE (seriesPointAt (r0 :: rest) r0) (periodKeys r0)

/-- First row of the source's hard-coded `data` array. -/
def revenueRecord : MetricRecord :=
  ⟨"Revenue (DEFAULT)",
    [("2017", .fin 1169.09), ("2018", .fin 1378.01), ("2019", .fin 1268.31),
     ("2020", .fin 782.74), ("2021", .fin 1059.22), ("2022", .fin 1738.74),
     ("2023", .fin 1676.62), ("2024", .fin 1687.33), ("2025", .fin 1659.86),
     ("2026", .fin 1649.90), ("2027", .fin 1717.55), ("2028", .fin 1786.25)]⟩

/-- Second row of the source's hard-coded `data` array. -/
def nopbtRecord : MetricRecord :=
  ⟨"NOPBT (DEFAULT)",
    [("2017", .fin 436.27), ("2018", .fin 496.75), ("2019", .fin 394.49),
     ("2020", .fin (-26.74)), ("2021", .fin 299.02), ("2022", .fin 837.02),
     ("2023", .fin 549.70), ("2024", .fin 462.13), ("2025", .fin 615.81),
     ("2026", .fin 612.11), ("2027", .fin 637.21), ("2028", .fin 662.70)]⟩

/-- Third row of the source's hard-coded `data` array. -/
def roicRecord : MetricRecord :=
  ⟨"ROIC (DEFAULT)",
    [("2017", .fin 0.5420), ("2018", .fin 0.6380), ("2019", .fin 0.3690),
     ("2020", .fin (-0.0210)), ("2021", .fin 0.2510), ("2022", .fin 0.6120),
     ("2023", .fin 0.3460), ("2024", .fin 0.2570), ("2025", .fin 0.3390),
     ("2026", .fin 0.3370), ("2027", .fin 0.3460), ("2028", .fin 0.3550)]⟩

/-- The source's module-level `data` constant (src/index.tsx lines 35-81). -/
def sourceData : List MetricRecord :=
  [revenueRecord, nopbtRecord, roicRecord]

/-- JavaScript `value < 0` on a number (the test in the table cell
renderer, src/index.tsx line 137): false for `NaN`. -/
def jsLtZero : JsNum → Bool
  | .fin q => decide (q < 0)
  | .negInf => true
  | _ => false

/-- The table cell's visual-treatment rule (src/index.tsx lines 134-141):
CSS class `text-red-500` exactly when `value < 0`. -/
def cellClass (value : JsNum) : String :=
  if jsLtZero value then "text-red-500" else ""

/-- Outcome of the chart-image export action: the downloaded file (name
and data URL) when one was produced, and the console-logged error when
the export collaborator failed. -/
structure ExportOutcome where
  downloaded : Option (String × String)
  logged : Option String
deriving DecidableEq, Repr

/-- `exportChartToImage` (src/index.tsx lines 165-179): returns
immediately when the surface handle (`chartRef.current`) is `null`;
otherwise runs the rasteriser `toPng` (an external collaborator, passed
here as an oracle), downloading the result on success and logging the
error on failure.  It is a total function: no failure propagates. -/
def exportChartToImage {α : Type} (chartRef : Option α)
    (toPng : α → Except String String) : ExportOutcome :=
  match chartRef with
  | none => ⟨none, none⟩
  | some el =>
    match toPng el with
    | .ok dataUrl => ⟨some ("financial_performance_trends.png", dataUrl), none⟩
    | .error err => ⟨none, some err⟩

/-- A one-record, one-period snapshot: the fixed series selection
(rows 0, 1, 2) is out of range for it. -/
def oneRecord : MetricRecord :=
  ⟨"Revenue (DEFAULT)", [("2017", .fin 1169.09)]⟩

/-- A one-record snapshot whose record has no period keys at all. -/
def noPeriodRecord : MetricRecord :=
  ⟨"Metric X", []⟩

/-- The spec's §8 scenario, first record: `Revenue=1169.09` for "2017". -/
def scenarioRevenue : MetricRecord :=
  ⟨"Revenue", [("2017", .fin 1169.09)]⟩

/-- The spec's §8 scenario, second record: `NOPBT=436.27` for "2017". -/
def scenarioNopbt : MetricRecord :=
  ⟨"NOPBT", [("2017", .fin 436.27)]⟩

/-- The spec's §8 scenario, third record: `ROIC=0.5420` for "2017". -/
def scenarioRoic : MetricRecord :=
  ⟨"ROIC", [("2017", .fin 0.5420)]⟩

/-- The spec's §8 scenario snapshot. -/
def scenarioSnapshot : List MetricRecord :=
  [scenarioRevenue, scenarioNopbt, scenarioRoic]

/-- If a callback never throws on the elements of `l`, the effectful map
succeeds and agrees with the pure map. -/
theorem mapE_ok {α β : Type} (f : α → Except String β) (g : α → β) :
    ∀ l : List α, (∀ a ∈ l, f a = .ok (g a)) → mapE f l = .ok (l.map g) := by
  intro l h
  induction l with
  | nil => rfl
  | cons a as ih =>
    have ha := h a (List.mem_cons_self a as)
    have hs := ih (fun x hx => h x (List.mem_cons_of_mem a hx))
    simp [mapE, ha, hs]

/-- C1: for every metric name containing the substring "ROIC" or
"Margins" (case-sensitive) and every numeric value `q`, the Value
Formatter returns the percentage string obtained by multiplying `q` by
100, fixing to one decimal place, and appending a `%` suffix. -/
theorem formatValue_percent_branch (q : ℚ) (m : String)
    (h : (strContains m "ROIC" || strContains m "Margins") = true) :
    formatValue (.num (.fin q)) m = .str (toFixed1 (.fin (q * 100)) ++ "%") := by
  simp [formatValue, h, jsNumMul100]

/-- Witness for C1: the ROIC value `0.542` formats as `54.2%`. -/
theorem formatValue_percent_branch_witness :
    formatValue (.num (.fin 0.542)) "ROIC (DEFAULT)" = .str "54.2%" := by
  rw [formatValue_percent_branch 0.542 "ROIC (DEFAULT)" (by decide),
    show (0.542 : ℚ) * 100 = 271 / 5 by norm_num]
  have hfl : (⌊(271 / 5 : ℚ) * 10 + 1 / 2⌋ : ℤ) = 542 := by norm_num
  simp only [toFixed1, hfl]
  decide

/-- C5 counterexample: on the empty snapshot the Series Projector does
not produce the empty sequence (it throws while enumerating the keys of
the absent first record). -/
theorem chartData_empty_not_empty_seq : chartDataOf [] ≠ .ok [] := by
  simp [chartDataOf]

/-- C5 (amended): on a snapshot with zero records the Series Projector
fails with a `TypeError` (from `Object.keys(data[0])` with `data[0]`
undefined) instead of producing an empty sequence. -/
theorem chartData_empty_fails : chartDataOf [] = .error typeErrorUndefKeys := rfl

/-- C7: the Value Formatter is a pure total function: for any non-numeric
input it returns the input unchanged (pass-through), and for every finite
numeric input it returns a string without failing. -/
theorem formatValue_passthrough_total (v : JsVal) (m : String) :
    (isNumber v = false → formatValue v m = v) ∧
    (∀ q : ℚ, ∃ s : String, formatValue (.num (.fin q)) m = .str s) := by
  constructor
  · intro h
    cases v <;> simp_all [formatValue, isNumber]
  · intro q
    by_cases hc : (strContains m "ROIC" || strContains m "Margins") = true
    · exact ⟨toFixed1 (.fin (q * 100)) ++ "%", by simp [formatValue, hc, jsNumMul100]⟩
    · refine ⟨intlCompactUSD (.fin q), ?_⟩
      simp only [formatValue]
      rw [if_neg (by simp_all)]

/-- Witness for C7: a string input passes through unchanged, and the
finite number `7` formats to some string. -/
theorem formatValue_passthrough_total_witness :
    formatValue (.str "n/a") "Revenue (DEFAULT)" = .str "n/a" ∧
    ∃ s : String, formatValue (.num (.fin 7)) "Revenue (DEFAULT)" = .str s :=
  ⟨(formatValue_passthrough_total (.str "n/a") "Revenue (DEFAULT)").1 rfl,
   (formatValue_passthrough_total (.str "n/a") "Revenue (DEFAULT)").2 7⟩

/-- C9: when the surface handle is `null` the chart-image export returns
without downloading a file and without failing; when the rasteriser
throws, the error is caught and logged and no file is downloaded. -/
theorem exportChart_graceful {α : Type} (toPng : α → Except String String) :
    exportChartToImage (none : Option α) toPng = ⟨none, none⟩ ∧
    (∀ (el : α) (e : String), toPng el = .error e →
      exportChartToImage (some el) toPng = ⟨none, some e⟩) :=
  ⟨rfl, fun el e h => by simp [exportChartToImage, h]⟩

/-- Witness for C9: a rasteriser that always throws produces no file and
logs the error; a `null` handle produces no file and no log. -/
theorem exportChart_graceful_witness :
    exportChartToImage (none : Option Unit) (fun _ => .error "encoding failed")
      = ⟨none, none⟩ ∧
    exportChartToImage (some ()) (fun _ => .error "encoding failed")
      = ⟨none, some "encoding failed"⟩ :=
  ⟨(exportChart_graceful (fun _ => .error "encoding failed")).1,
   (exportChart_graceful (fun _ => .error "encoding failed")).2 () "encoding failed" rfl⟩

/-- C2 counterexample: a non-empty snapshot (one record, one period key)
on which the Series Projector emits no sequence at all: it throws a
`TypeError` reading a property of the absent second record. -/
theorem chartData_one_record_throws :
    chartDataOf [oneRecord] = .error typeErrorUndefRead ∧
    (periodKeys oneRecord).length = 1 :=
  ⟨rfl, rfl⟩

/-- C2 (amended): for every snapshot with at least three records (so the
fixed selection of rows 0, 1, 2 is in range), the Series Projector emits
one Series Point per period key of the first record, in the order those
keys appear in that record; hence the output length equals the number of
period keys of the first record. -/
theorem chartData_one_point_per_period (d : List MetricRecord)
    (r0 r1 r2 : MetricRecord) (t : List MetricRecord)
    (hd : d = r0 :: r1 :: r2 :: t) :
    ∃ pts : List SeriesPoint, chartDataOf d = .ok pts ∧
      pts.map SeriesPoint.year = periodKeys r0 ∧
      pts.length = (periodKeys r0).length := by
  subst hd
  refine ⟨(periodKeys r0).map
    (fun y => ⟨y, jsGet r0 y, jsGet r1 y, jsMul100 (jsGet r2 y)⟩), ?_, ?_, ?_⟩
  · exact mapE_ok _ _ _ (fun y _ => rfl)
  · rw [List.map_map]
    have hcomp : (SeriesPoint.year ∘ fun y =>
        (⟨y, jsGet r0 y, jsGet r1 y, jsMul100 (jsGet r2 y)⟩ : SeriesPoint)) = id := by
      funext y
      rfl
    rw [hcomp, List.map_id]
  · simp

/-- Witness for C2: the source's own three-record snapshot projects to
one point per year column of the Revenue record. -/
theorem chartData_one_point_per_period_witness :
    ∃ pts : List SeriesPoint, chartDataOf sourceData = .ok pts ∧
      pts.map SeriesPoint.year = periodKeys revenueRecord ∧
      pts.length = (periodKeys revenueRecord).length :=
  chartData_one_point_per_period sourceData revenueRecord nopbtRecord roicRecord [] rfl

/-- C6 counterexample: a snapshot whose fixed series selection (rows 1
and 2) is out of range, yet the Series Projector silently returns the
empty sequence instead of failing, because the first record has no
period keys and the throwing callback never runs. -/
theorem chartData_out_of_range_silent_empty :
    chartDataOf [noPeriodRecord] = .ok [] ∧
    ([noPeriodRecord] : List MetricRecord).length < 3 :=
  ⟨rfl, by decide⟩

/-- C6 (amended): if the fixed series selection is out of range (fewer
than three records) and the first record, when present, has at least one
period key, the Series Projector fails with a thrown `TypeError` rather
than silently producing undefined values. -/
theorem chartData_out_of_range_fails (d : List MetricRecord)
    (hlen : d.length < 3)
    (hkeys : ∀ r rest, d = r :: rest → periodKeys r ≠ []) :
    ∃ e : String, chartDataOf d = .error e := by
  cases d with
  | nil => exact ⟨typeErrorUndefKeys, rfl⟩
  | cons r0 rest =>
    cases rest with
    | nil =>
      cases hpk : periodKeys r0 with
      | nil => exact absurd hpk (hkeys r0 [] rfl)
      | cons y ys =>
        refine ⟨typeErrorUndefRead, ?_⟩
        show mapE (seriesPointAt [r0] r0) (periodKeys r0) = _
        rw [hpk]
        rfl
    | cons r1 rest2 =>
      cases rest2 with
      | nil =>
        cases hpk : periodKeys r0 with
        | nil => exact absurd hpk (hkeys r0 [r1] rfl)
        | cons y ys =>
          refine ⟨typeErrorUndefRead, ?_⟩
          show mapE (seriesPointAt [r0, r1] r0) (periodKeys r0) = _
          rw [hpk]
          rfl
      | cons r2 t =>
        exfalso
        simp only [List.length_cons] at hlen
        omega

/-- Witness for C6 (amended): the one-record snapshot with a period key
makes the projector fail. -/
theorem chartData_out_of_range_fails_witness :
    ∃ e : String, chartDataOf [oneRecord] = .error e :=
  chartData_out_of_range_fails [oneRecord] (by decide)
    (fun r rest h => by
      injection h with h1 h2
      subst h1
      decide)

/-- C3: the Series Projector multiplies the percentage-denominated
(roic) raw value by 100 before emission; on the spec's scenario records
`Revenue=1169.09`, `NOPBT=436.27`, `ROIC=0.5420` for period "2017" it
emits the single point `revenue=1169.09, nopbt=436.27, roic=54.20`. -/
theorem chartData_roic_times_100 :
    (∀ (d : List MetricRecord) (r0 r1 r2 : MetricRecord) (t : List MetricRecord),
      d = r0 :: r1 :: r2 :: t →
      ∀ (y : String) (q : ℚ), jsGet r2 y = .num (.fin q) →
      ∀ p : SeriesPoint, seriesPointAt d r0 y = .ok p →
        p.roic = .num (.fin (q * 100))) ∧
    chartDataOf scenarioSnapshot =
      .ok [⟨"2017", .num (.fin 1169.09), .num (.fin 436.27), .num (.fin 54.20)⟩] := by
  constructor
  · intro d r0 r1 r2 t hd y q hq p hp
    subst hd
    simp only [seriesPointAt, List.get?_cons_succ, List.get?_cons_zero,
      Except.ok.injEq] at hp
    rw [← hp]
    simp [jsMul100, jsNumMul100, hq]
  · have h1 : chartDataOf scenarioSnapshot =
        .ok [⟨"2017", jsGet scenarioRevenue "2017", jsGet scenarioNopbt "2017",
          jsMul100 (jsGet scenarioRoic "2017")⟩] := rfl
    have h2 : jsGet scenarioRevenue "2017" = .num (.fin 1169.09) := rfl
    have h3 : jsGet scenarioNopbt "2017" = .num (.fin 436.27) := rfl
    have h4 : jsGet scenarioRoic "2017" = .num (.fin 0.5420) := rfl
    have h5 : jsMul100 (.num (.fin (0.5420 : ℚ))) = .num (.fin ((0.5420 : ℚ) * 100)) := rfl
    rw [h1, h2, h3, h4, h5, show (0.5420 : ℚ) * 100 = 54.20 by norm_num]

/-- Witness for C3: applying the multiply-by-100 law at the scenario
snapshot and period "2017". -/
theorem chartData_roic_times_100_witness :
    ∃ p : SeriesPoint, seriesPointAt scenarioSnapshot scenarioRevenue "2017" = .ok p ∧
      p.roic = .num (.fin ((0.5420 : ℚ) * 100)) := by
  refine ⟨⟨"2017", jsGet scenarioRevenue "2017", jsGet scenarioNopbt "2017",
    jsMul100 (jsGet scenarioRoic "2017")⟩, rfl, ?_⟩
  exact chartData_roic_times_100.1 scenarioSnapshot scenarioRevenue scenarioNopbt
    scenarioRoic [] rfl "2017" 0.5420 rfl _ rfl

/-- `fixed2` always yields an integer part, a dot, and a two-digit
zero-padded fractional part below 100. -/
theorem fixed2_shape (q : ℚ) :
    ∃ i frac : ℕ, frac < 100 ∧ fixed2 q = toString i ++ "." ++ pad2 frac :=
  ⟨(⌊q * 100 + 1 / 2⌋ : ℤ).natAbs / 100, (⌊q * 100 + 1 / 2⌋ : ℤ).natAbs % 100,
    Nat.mod_lt _ (by norm_num), rfl⟩

/-- Every output of the compact formatter on a non-negative value is a
dollar sign, digits, a dot, two fractional digits and an en-US magnitude
suffix. -/
theorem compactUSDNonNeg_shape (q : ℚ) :
    ∃ (i frac : ℕ) (suf : String),
      frac < 100 ∧ (suf = "" ∨ suf = "K" ∨ suf = "M" ∨ suf = "B" ∨ suf = "T") ∧
      compactUSDNonNeg q = "$" ++ toString i ++ "." ++ pad2 frac ++ suf := by
  unfold compactUSDNonNeg
  split_ifs with h1 h2 h3 h4
  · obtain ⟨i, f, hf, he⟩ := fixed2_shape q
    exact ⟨i, f, "", hf, Or.inl rfl,
      by rw [he]; simp [String.append_assoc, String.append_empty]⟩
  · obtain ⟨i, f, hf, he⟩ := fixed2_shape (q / 1000)
    exact ⟨i, f, "K", hf, by tauto, by rw [he]; simp [String.append_assoc]⟩
  · obtain ⟨i, f, hf, he⟩ := fixed2_shape (q / 10 ^ 6)
    exact ⟨i, f, "M", hf, by tauto, by rw [he]; simp [String.append_assoc]⟩
  · obtain ⟨i, f, hf, he⟩ := fixed2_shape (q / 10 ^ 9)
    exact ⟨i, f, "B", hf, by tauto, by rw [he]; simp [String.append_assoc]⟩
  · obtain ⟨i, f, hf, he⟩ := fixed2_shape (q / 10 ^ 12)
    exact ⟨i, f, "T", hf, by tauto, by rw [he]; simp [String.append_assoc]⟩

/-- The currency branch of the Value Formatter, reached exactly when the
metric name contains neither "ROIC" nor "Margins". -/
theorem formatValue_currency_branch (n : JsNum) (m : String)
    (h : (strContains m "ROIC" || strContains m "Margins") = false) :
    formatValue (.num n) m = .str (intlCompactUSD n) := by
  simp [formatValue, h]

/-- C4: for every finite numeric value whose metric name does not contain
"ROIC" or "Margins", the Value Formatter returns a US-dollar
compact-notation currency string with exactly two decimal places; the
magnitudes 1169.09 and 1169090 (a factor of 1000 apart) format distinctly
via a magnitude suffix while both carry the currency symbol. -/
theorem formatValue_compact_currency :
    (∀ (q : ℚ) (m : String),
      (strContains m "ROIC" || strContains m "Margins") = false →
      ∃ (neg : Bool) (i frac : ℕ) (suf : String),
        frac < 100 ∧
        (suf = "" ∨ suf = "K" ∨ suf = "M" ∨ suf = "B" ∨ suf = "T") ∧
        formatValue (.num (.fin q)) m =
          .str ((if neg then "-" else "") ++ "$" ++ toString i ++ "." ++ pad2 frac ++ suf)) ∧
    (formatValue (.num (.fin 1169.09)) "Revenue (DEFAULT)" = .str "$1.17K" ∧
     formatValue (.num (.fin 1169090)) "Revenue (DEFAULT)" = .str "$1.17M" ∧
     ("$1.17K" : String) ≠ "$1.17M") := by
  refine ⟨?_, ?_, ?_, by decide⟩
  · intro q m h
    rw [formatValue_currency_branch _ _ h]
    by_cases hq : q < 0
    · obtain ⟨i, f, suf, hf, hsuf, he⟩ := compactUSDNonNeg_shape (-q)
      refine ⟨true, i, f, suf, hf, hsuf, ?_⟩
      simp only [intlCompactUSD]
      rw [if_pos hq, he]
      simp [String.append_assoc]
      rw [← String.append_assoc]
      congr 1
    · obtain ⟨i, f, suf, hf, hsuf, he⟩ := compactUSDNonNeg_shape q
      refine ⟨false, i, f, suf, hf, hsuf, ?_⟩
      simp only [intlCompactUSD]
      rw [if_neg hq, he]
      simp [String.append_assoc, String.empty_append]
  · rw [formatValue_currency_branch _ _ (by decide)]
    have h1 : intlCompactUSD (.fin (1169.09 : ℚ)) = compactUSDNonNeg 1169.09 := by
      simp only [intlCompactUSD]
      rw [if_neg (by norm_num)]
    have h2 : compactUSDNonNeg (1169.09 : ℚ) = "$" ++ fixed2 (1169.09 / 1000) ++ "K" := by
      unfold compactUSDNonNeg
      rw [if_neg (by norm_num), if_pos (by norm_num)]
    have h3 : fixed2 ((1169.09 : ℚ) / 1000) = "1.17" := by
      have hm : (⌊(1169.09 : ℚ) / 1000 * 100 + 1 / 2⌋ : ℤ) = 117 := by norm_num
      simp only [fixed2, hm]
      decide
    rw [h1, h2, h3]
    decide
  · rw [formatValue_currency_branch _ _ (by decide)]
    have h1 : intlCompactUSD (.fin (1169090 : ℚ)) = compactUSDNonNeg 1169090 := by
      simp only [intlCompactUSD]
      rw [if_neg (by norm_num)]
    have h2 : compactUSDNonNeg (1169090 : ℚ) = "$" ++ fixed2 (1169090 / 10 ^ 6) ++ "M" := by
      unfold compactUSDNonNeg
      rw [if_neg (by norm_num), if_neg (by norm_num), if_pos (by norm_num)]
    have h3 : fixed2 ((1169090 : ℚ) / 10 ^ 6) = "1.17" := by
      have hm : (⌊(1169090 : ℚ) / 10 ^ 6 * 100 + 1 / 2⌋ : ℤ) = 117 := by norm_num
      simp only [fixed2, hm]
      decide
    rw [h1, h2, h3]
    decide

/-- Witness for C4: the value 7 with a non-percent metric name formats to
a compact currency string. -/
theorem formatValue_compact_currency_witness :
    ∃ (neg : Bool) (i frac : ℕ) (suf : String),
      frac < 100 ∧
      (suf = "" ∨ suf = "K" ∨ suf = "M" ∨ suf = "B" ∨ suf = "T") ∧
      formatValue (.num (.fin 7)) "Revenue (DEFAULT)" =
        .str ((if neg then "-" else "") ++ "$" ++ toString i ++ "." ++ pad2 frac ++ suf) :=
  formatValue_compact_currency.1 7 "Revenue (DEFAULT)" (by decide)

/-- C8: formatting `-26.74` for metric "NOPBT (DEFAULT)" yields a currency
string beginning with a negative sign, and the caller's visual-treatment
rule marks the cell with the distinct color class exactly when the raw
numeric value is negative. -/
theorem formatValue_negative_sign_cell_color :
    formatValue (.num (.fin (-26.74))) "NOPBT (DEFAULT)" = .str ("-" ++ "$26.74") ∧
    cellClass (.fin (-26.74)) = "text-red-500" ∧
    (∀ q : ℚ, cellClass (.fin q) = "text-red-500" ↔ q < 0) := by
  refine ⟨?_, ?_, ?_⟩
  · rw [formatValue_currency_branch _ _ (by decide)]
    have h1 : intlCompactUSD (.fin (-26.74 : ℚ)) = "-" ++ compactUSDNonNeg 26.74 := by
      simp only [intlCompactUSD]
      rw [if_pos (by norm_num), show (-(-26.74 : ℚ)) = 26.74 by norm_num]
    have h2 : compactUSDNonNeg (26.74 : ℚ) = "$" ++ fixed2 26.74 := by
      unfold compactUSDNonNeg
      rw [if_pos (by norm_num)]
    have h3 : fixed2 (26.74 : ℚ) = "26.74" := by
      have hm : (⌊(26.74 : ℚ) * 100 + 1 / 2⌋ : ℤ) = 2674 := by norm_num
      simp only [fixed2, hm]
      decide
    rw [h1, h2, h3]
    decide
  · have h : jsLtZero (.fin (-26.74 : ℚ)) = true := by
      simp only [jsLtZero]
      exact decide_eq_true (by norm_num)
    simp [cellClass, h]
  · intro q
    simp only [cellClass, jsLtZero, decide_eq_true_eq]
    split_ifs with h
    · exact iff_of_true rfl h
    · exact iff_of_false (by decide) h

/-- C10: every argument of runtime type number — `NaN` and the infinities
included — takes a string-returning branch of the Value Formatter, never
the pass-through branch; the pass-through (identity) happens exactly for
arguments that are not of type number. -/
theorem formatValue_number_branches (n : JsNum) (m : String) :
    ((strContains m "ROIC" || strContains m "Margins") = true →
      formatValue (.num n) m = .str (toFixed1 (jsNumMul100 n) ++ "%")) ∧
    ((strContains m "ROIC" || strContains m "Margins") = false →
      formatValue (.num n) m = .str (intlCompactUSD n)) ∧
    (∀ v : JsVal, formatValue v m = v ↔ isNumber v = false) := by
  refine ⟨fun h => by simp [formatValue, h], fun h => by simp [formatValue, h], fun v => ?_⟩
  cases v with
  | num n' =>
    simp only [isNumber]
    constructor
    · intro hv
      cases hb : (strContains m "ROIC" || strContains m "Margins") with
      | true =>
        rw [show formatValue (.num n') m = .str (toFixed1 (jsNumMul100 n') ++ "%") from
          by simp [formatValue, hb]] at hv
        exact JsVal.noConfusion hv
      | false =>
        rw [formatValue_currency_branch n' m hb] at hv
        exact JsVal.noConfusion hv
    · intro hv
      exact Bool.noConfusion hv
  | str s => simp [formatValue, isNumber]
  | boolean b => simp [formatValue, isNumber]
  | null => simp [formatValue, isNumber]
  | jsUndefined => simp [formatValue, isNumber]

/-- Witness for C10: `NaN` takes the percentage branch for a ROIC name,
`Infinity` takes the currency branch for a revenue name, and `null`
passes through unchanged. -/
theorem formatValue_number_branches_witness :
    formatValue (.num .nan) "ROIC (DEFAULT)" = .str "NaN%" ∧
    formatValue (.num .inf) "Revenue (DEFAULT)" = .str "$∞" ∧
    formatValue .null "Revenue (DEFAULT)" = .null :=
  ⟨((formatValue_number_branches .nan "ROIC (DEFAULT)").1 (by decide)).trans (by decide),
   ((formatValue_number_branches .inf "Revenue (DEFAULT)").2.1 (by decide)).trans (by decide),
   ((formatValue_number_branches .inf "Revenue (DEFAULT)").2.2 .null).mpr (by decide)⟩

end D6Dashboard
